import Mathlib

/-
Verification of the MODFLOW-Madison2025 workshop notebooks.

The repository is a collection of Jupyter notebooks that orchestrate the
external MODFLOW 6 simulator through the FloPy toolkit.  This file gives a
shallow embedding of the small pieces of computation the notebooks perform
themselves (the rectangular splitting-mask fallback, the layer top/bottom
recurrence, the zone-array construction, node-number arithmetic) and of the
top-to-bottom sequence of toolkit calls each notebook makes (load or build a
simulation, write it, run it, load its outputs, plot), and proves properties
of those embeddings.
-/

namespace Step2

/--
Transcribes the cell value of the rectangular splitting fallback in the
step2_split_watershed notebook:

    isub = np.floor(icol / (ncol / nr_domains))

Python float division is modelled by exact rational division (note that in
Lean division by zero yields zero, so the definition is total).
-/
def isub (icol ncol nr_domains : ℕ) : ℤ :=
  ⌊(icol : ℚ) / ((ncol : ℚ) / (nr_domains : ℚ))⌋

/--
The splitting mask of the step2_split_watershed notebook is either produced by
the external graph-partitioning library through the toolkit call
mfsplit.optimize_splitting_mask (an opaque call: only the requested number of
parts is visible to the repository) or computed in-repo as an nrow-by-ncol
array of domain numbers.
-/
inductive SplitMask where
  | toolkit (nparts : ℕ)
  | inRepo (mask : List (List ℤ))
deriving DecidableEq

/--
Transcribes the splitting cell of the step2_split_watershed notebook:

    if use_metis:
        split_array = mfsplit.optimize_splitting_mask(nparts=nr_domains)
    else:
        split_array = np.zeros((nrow, ncol), dtype=int)
        for irow in range(nrow):
            for icol in range(ncol):
                isub = np.floor(icol / (ncol / nr_domains))
                split_array[irow, icol] = isub

The committed notebook sets use_metis = True.
-/
def split_array (use_metis : Bool) (nrow ncol nr_domains : ℕ) : SplitMask :=
  if use_metis then SplitMask.toolkit nr_domains
  else SplitMask.inRepo
    ((List.range nrow).map fun _irow =>
      (List.range ncol).map fun icol => isub icol ncol nr_domains)

/-- Discriminator: did the mask come from the toolkit call? -/
def SplitMask.isToolkit : SplitMask → Bool
  | SplitMask.toolkit _ => true
  | SplitMask.inRepo _ => false

end Step2

namespace BuildBase

/-- Number of layers in the build_base_watershed notebook: nlay = 5. -/
def nlay : ℕ := 5

/-- Thickness of layer 1 in the build_base_watershed notebook: dv0 = 5.0. -/
def dv0 : ℚ := 5.0

/--
Bottom elevation of layer k at a cell whose sampled topography value is t,
transcribing the loop of the build_base_watershed notebook:

    dv = dv0
    topc[0] = top_wg.copy()
    botm[0] = topc[0] - dv
    for idx in range(1, nlay):
        dv *= 1.5
        topc[idx] = botm[idx - 1]
        botm[idx] = topc[idx] - dv

At iteration idx the accumulated dv equals d0 * 1.5 ^ idx, and
botm[idx] = topc[idx] - dv = botm[idx - 1] - dv.  Float arithmetic is
modelled by exact rational arithmetic.
-/
def botm (t d0 : ℚ) : ℕ → ℚ
  | 0 => t - d0
  | k + 1 => botm t d0 k - d0 * 1.5 ^ (k + 1)

/-- Top elevation of layer k at a cell with topography value t: topc[0] is the
sampled topography and topc[idx] = botm[idx - 1] for idx from 1 on. -/
def topc (t d0 : ℚ) : ℕ → ℚ
  | 0 => t
  | k + 1 => botm t d0 k

end BuildBase

namespace PrtEx3

/-- Grid rows in the prt_ex3 notebook: nrow = 21. -/
def nrow : ℕ := 21

/-- Grid columns in the prt_ex3 notebook: ncol = 20. -/
def ncol : ℕ := 20

/-- Well data of the prt_ex3 notebook, entries (layer, row, col, discharge):
wells = [(0, 10, 9, -75000), (2, 12, 4, -100000)]. -/
def wells : List (ℕ × ℕ × ℕ × ℤ) := [(0, 10, 9, -75000), (2, 12, 4, -100000)]

/-- Drain location of the prt_ex3 notebook: drain = (0, 14, (9, 20)), that is,
layer 0, row 14, column slice 9:20. -/
def drain : ℕ × ℕ × ℕ × ℕ := (0, 14, (9, 20))

/-- Transcribes the node-number arithmetic in the prt_ex3 notebook, which maps
(layer k, row i, column j) to the row-major node number
ncol * (nrow * k + i) + j. -/
def nodeNumber (k i j : ℕ) : ℕ := ncol * (nrow * k + i) + j

/-- Transcribes the helper inside get_izone: a layer filled with the default
zone 1, np.ones((nrow, ncol)). -/
def ones : ℕ → ℕ → ℤ := fun _ _ => 1

/-- Layer 1 of the zone array after the first update of get_izone:
l1[wells[0][1:3]] = 2, i.e. the cell (10, 9) of the first well is zone 2. -/
def l1_well (i j : ℕ) : ℤ := if i = 10 ∧ j = 9 then 2 else ones i j

/-- Layer 1 of the zone array after the second update of get_izone:
l1[drain[1], drain[2][0] : drain[2][1]] = 4, i.e. row 14, columns 9 to 19,
is zone 4 (the drain).  drain.2.1 = 14, drain.2.2.1 = 9, drain.2.2.2 = 20. -/
def l1_drain (i j : ℕ) : ℤ :=
  if i = drain.2.1 ∧ drain.2.2.1 ≤ j ∧ j < drain.2.2.2 then 4 else l1_well i j

/-- Layer 1 of the zone array after the final update of get_izone:
l1[:, ncol - 1] = 5, i.e. the last column is zone 5 (the river), overriding
any earlier assignment there. -/
def l1 (i j : ℕ) : ℤ := if j = ncol - 1 then 5 else l1_drain i j

/-- Layer 2 of the zone array: the scalar 1 (izone.append(1)). -/
def izone2 : ℤ := 1

/-- Layer 3 of the zone array: ones with l3[wells[1][1:3]] = 3, i.e. the cell
(12, 4) of the second well is zone 3. -/
def l3 (i j : ℕ) : ℤ := if i = 12 ∧ j = 4 then 3 else ones i j

end PrtEx3

/-- The simulations the notebooks construct, load, write, run, or read output
from. -/
inductive SimId where
  | watershed
  | parallel
  | freyberg
  | freybergSplit
  | freybergBalanced
  | ex3
  | whirls
  | gwtFlow
  | gwtTransport
deriving DecidableEq

/-- The notebook documents of the repository. -/
inductive NotebookId where
  | intro
  | step2SplitWatershed
  | modelSplittingDemo
  | step1RunBaseWatershed
  | step3ParallelWatershed
  | step4ParallelSolution
  | prtEx3
  | prtWhirlsAnimation
  | gwtEx3
  | netcdfOutput
  | buildBaseWatershed
deriving DecidableEq

/-- The Python assert statements appearing in the notebooks. -/
inductive AssertId where
  | releasePointsAllclose
  | innerCsvBaseExists
  | innerCsvParallelExists
deriving DecidableEq

/--
The events of a notebook, in top-to-bottom cell order, restricted to the
vocabulary the claims are about: constructing a simulation object
(buildSim, covering flopy.mf6.MFSimulation and library builders such as
Mf6Splitter.split_model and ex3.get_mf6gwf_sim), loading one from disk
(loadSim, flopy.mf6.MFSimulation.load), writing the input deck (writeSim,
write_simulation), invoking the external executable (runSim, run_simulation,
with the processors argument when one is passed), loading simulation output
files such as head or budget binaries, solver or track CSVs, observation or
NetCDF files (loadOutput), a Python assert statement (assertCheck), plotting
data (plotData), and creating, scheduling or synchronizing a thread, process
or MPI rank directly (spawnWorker; no notebook cell does this, so no trace
contains it).
-/
inductive Event where
  | buildSim (s : SimId)
  | loadSim (s : SimId)
  | writeSim (s : SimId)
  | runSim (s : SimId) (processors : Option ℕ)
  | loadOutput (s : SimId)
  | assertCheck (a : AssertId)
  | plotData
  | spawnWorker
deriving DecidableEq

/--
The trace of toolkit calls of each notebook, transcribed from its cells in
top-to-bottom order.

intro: markdown only, no code cells.

step2SplitWatershed: loads the base watershed simulation, plots the splitting
array, builds the split simulation with mfsplit.split_model, writes it
(write_simulation and save_node_mapping) and plots the subdomains; it never
calls run_simulation.

modelSplittingDemo: loads the Freyberg model, writes and runs it, loads and
plots heads; splits it and writes, runs, loads and plots the split models;
then builds a load-balanced split with optimize_splitting_mask, plots the
mask, writes and runs it, loads its heads through the saved node mapping and
plots the reconstruction.

step1RunBaseWatershed: loads the watershed simulation, writes it to the base
directory, runs it with run_simulation(processors=1), loads the heads and
plots them.

step3ParallelWatershed: loads the parallel (split) and the serial base
simulations, runs the parallel one with run_simulation(processors=nr_cores)
where nr_cores = 2, loads the parallel heads, loads the serial base heads
(produced by the run in step 1), and plots both; it never calls
write_simulation.

step4ParallelSolution: loads the parallel simulation, asserts that the solver
inner-iteration CSV files of the base and parallel runs exist on disk, reads
those CSVs and plots the convergence behavior; it neither writes nor runs.

prtEx3: builds the combined GWF-PRT simulation, asserts
np.allclose(mp7_release_points, prt_release_points) while configuring the
release points, writes and runs the simulation, loads the heads and the track
CSV and plots heads with pathlines.

prtWhirlsAnimation: builds the whirls GWF-PRT simulation, writes and runs it,
loads the track CSV and renders two PyVista animations.

gwtEx3: builds, writes and runs the flow simulation, then the transport
simulation; plots head and concentration results (loading the output arrays),
loads the well-concentration observations and plots them; then three more
build-write-run rounds of flow and transport variants, each followed by
loading the observations, and three final plots.

netcdfOutput: loads the watershed simulation, writes and runs it with
structured NetCDF output, opens the NetCDF file and plots; writes and runs it
again with mesh NetCDF output, opens that file and plots, including two
cross-sections.

buildBaseWatershed: plots the input topography, boundary, river intersection
and idomain data, builds the watershed simulation and writes it with
write_simulation; it never calls run_simulation and loads no output.
-/
def trace : NotebookId → List Event
  | NotebookId.intro => []
  | NotebookId.step2SplitWatershed =>
      [Event.loadSim SimId.watershed, Event.plotData,
       Event.buildSim SimId.parallel, Event.writeSim SimId.parallel,
       Event.plotData]
  | NotebookId.modelSplittingDemo =>
      [Event.loadSim SimId.freyberg, Event.writeSim SimId.freyberg,
       Event.runSim SimId.freyberg none, Event.loadOutput SimId.freyberg,
       Event.plotData, Event.plotData,
       Event.buildSim SimId.freybergSplit, Event.writeSim SimId.freybergSplit,
       Event.runSim SimId.freybergSplit none,
       Event.loadOutput SimId.freybergSplit, Event.plotData, Event.plotData,
       Event.buildSim SimId.freybergBalanced,
       Event.writeSim SimId.freybergBalanced,
       Event.runSim SimId.freybergBalanced none,
       Event.loadOutput SimId.freybergBalanced, Event.plotData]
  | NotebookId.step1RunBaseWatershed =>
      [Event.loadSim SimId.watershed, Event.writeSim SimId.watershed,
       Event.runSim SimId.watershed (some 1), Event.loadOutput SimId.watershed,
       Event.plotData]
  | NotebookId.step3ParallelWatershed =>
      [Event.loadSim SimId.parallel, Event.loadSim SimId.watershed,
       Event.runSim SimId.parallel (some 2), Event.loadOutput SimId.parallel,
       Event.loadOutput SimId.watershed, Event.plotData]
  | NotebookId.step4ParallelSolution =>
      [Event.loadSim SimId.parallel,
       Event.assertCheck AssertId.innerCsvBaseExists,
       Event.assertCheck AssertId.innerCsvParallelExists,
       Event.loadOutput SimId.watershed, Event.loadOutput SimId.parallel,
       Event.plotData]
  | NotebookId.prtEx3 =>
      [Event.buildSim SimId.ex3,
       Event.assertCheck AssertId.releasePointsAllclose,
       Event.writeSim SimId.ex3, Event.runSim SimId.ex3 none,
       Event.loadOutput SimId.ex3, Event.loadOutput SimId.ex3,
       Event.plotData]
  | NotebookId.prtWhirlsAnimation =>
      [Event.buildSim SimId.whirls, Event.writeSim SimId.whirls,
       Event.runSim SimId.whirls none, Event.loadOutput SimId.whirls,
       Event.plotData, Event.plotData]
  | NotebookId.gwtEx3 =>
      [Event.buildSim SimId.gwtFlow, Event.writeSim SimId.gwtFlow,
       Event.runSim SimId.gwtFlow none,
       Event.buildSim SimId.gwtTransport, Event.writeSim SimId.gwtTransport,
       Event.runSim SimId.gwtTransport none,
       Event.loadOutput SimId.gwtFlow, Event.plotData,
       Event.loadOutput SimId.gwtTransport, Event.plotData,
       Event.loadOutput SimId.gwtTransport, Event.plotData,
       Event.buildSim SimId.gwtFlow, Event.writeSim SimId.gwtFlow,
       Event.runSim SimId.gwtFlow none,
       Event.buildSim SimId.gwtTransport, Event.writeSim SimId.gwtTransport,
       Event.runSim SimId.gwtTransport none,
       Event.loadOutput SimId.gwtTransport,
       Event.buildSim SimId.gwtFlow, Event.writeSim SimId.gwtFlow,
       Event.runSim SimId.gwtFlow none,
       Event.buildSim SimId.gwtTransport, Event.writeSim SimId.gwtTransport,
       Event.runSim SimId.gwtTransport none,
       Event.loadOutput SimId.gwtTransport,
       Event.buildSim SimId.gwtFlow, Event.writeSim SimId.gwtFlow,
       Event.runSim SimId.gwtFlow none,
       Event.buildSim SimId.gwtTransport, Event.writeSim SimId.gwtTransport,
       Event.runSim SimId.gwtTransport none,
       Event.loadOutput SimId.gwtTransport,
       Event.plotData, Event.plotData, Event.plotData]
  | NotebookId.netcdfOutput =>
      [Event.loadSim SimId.watershed, Event.writeSim SimId.watershed,
       Event.runSim SimId.watershed none, Event.loadOutput SimId.watershed,
       Event.plotData, Event.writeSim SimId.watershed,
       Event.runSim SimId.watershed none, Event.loadOutput SimId.watershed,
       Event.plotData, Event.plotData, Event.plotData]
  | NotebookId.buildBaseWatershed =>
      [Event.plotData, Event.plotData, Event.plotData, Event.plotData,
       Event.buildSim SimId.watershed, Event.writeSim SimId.watershed]

/-- All notebook documents of the repository. -/
def notebooks : List NotebookId :=
  [NotebookId.intro, NotebookId.step2SplitWatershed,
   NotebookId.modelSplittingDemo, NotebookId.step1RunBaseWatershed,
   NotebookId.step3ParallelWatershed, NotebookId.step4ParallelSolution,
   NotebookId.prtEx3, NotebookId.prtWhirlsAnimation, NotebookId.gwtEx3,
   NotebookId.netcdfOutput, NotebookId.buildBaseWatershed]

/-- Does the event construct a simulation object (build or load)? -/
def Event.isConstruct : Event → Bool
  | Event.buildSim _ => true
  | Event.loadSim _ => true
  | _ => false

/-- Is the event a write_simulation call? -/
def Event.isWrite : Event → Bool
  | Event.writeSim _ => true
  | _ => false

/-- Is the event a run_simulation call? -/
def Event.isRun : Event → Bool
  | Event.runSim _ _ => true
  | _ => false

/-- Is the event a load of simulation output? -/
def Event.isLoadOut : Event → Bool
  | Event.loadOutput _ => true
  | _ => false

/-- Is the event an assert statement? -/
def Event.isAssertCk : Event → Bool
  | Event.assertCheck _ => true
  | _ => false

/-- Is the event a direct creation of a thread, process, or MPI rank? -/
def Event.isSpawn : Event → Bool
  | Event.spawnWorker => true
  | _ => false

/-- The processors argument of a run_simulation call, when one is passed. -/
def Event.processorsArg : Event → Option ℕ
  | Event.runSim _ p => p
  | _ => none

/-- The simulation an event concerns, when it concerns one. -/
def Event.simOf : Event → Option SimId
  | Event.buildSim s => some s
  | Event.loadSim s => some s
  | Event.writeSim s => some s
  | Event.runSim s _ => some s
  | Event.loadOutput s => some s
  | _ => none

/-- The simulations a trace mentions. -/
def simsOf (t : List Event) : List SimId := t.filterMap Event.simOf

/-- Is the event a write of simulation s? -/
def isWriteOf (s : SimId) : Event → Bool
  | Event.writeSim s2 => decide (s2 = s)
  | _ => false

/-- Is the event a run of simulation s? -/
def isRunOf (s : SimId) : Event → Bool
  | Event.runSim s2 _ => decide (s2 = s)
  | _ => false

/-- Is the event a build or load of simulation s? -/
def isConstructOf (s : SimId) : Event → Bool
  | Event.buildSim s2 => decide (s2 = s)
  | Event.loadSim s2 => decide (s2 = s)
  | _ => false

/-- Is the event an output load of simulation s? -/
def isLoadOutOf (s : SimId) : Event → Bool
  | Event.loadOutput s2 => decide (s2 = s)
  | _ => false

/-- Scans a trace left to right: every trigger event must be preceded by some
enabler event.  The Boolean argument records whether an enabler was already
seen. -/
def precededByAux (trig enab : Event → Bool) : Bool → List Event → Bool
  | _, [] => true
  | seen, e :: rest =>
      (!trig e || seen) && precededByAux trig enab (seen || enab e) rest

/-- Every trigger event in the trace has an enabler event somewhere before it. -/
def precededBy (trig enab : Event → Bool) (t : List Event) : Bool :=
  precededByAux trig enab false t

/-- The ordering discipline of a notebook trace: for every simulation the
notebook touches, every write is preceded by a build or load of that
simulation; if the notebook writes the simulation, every run of it is
preceded by a write; and if the notebook runs the simulation, every load of
its output is preceded by a run. -/
def orderOK (t : List Event) : Bool :=
  (simsOf t).all fun s =>
    precededBy (isWriteOf s) (isConstructOf s) t &&
    (!(t.any (isWriteOf s)) || precededBy (isRunOf s) (isWriteOf s) t) &&
    (!(t.any (isRunOf s)) || precededBy (isLoadOutOf s) (isRunOf s) t)

/-- Which lifecycle phases a notebook performs: (constructs or loads a
simulation, writes one, runs one, loads simulation output). -/
def phases (nb : NotebookId) : Bool × Bool × Bool × Bool :=
  ((trace nb).any Event.isConstruct, (trace nb).any Event.isWrite,
   (trace nb).any Event.isRun, (trace nb).any Event.isLoadOut)

/-- The assert statements of a notebook, in order. -/
def assertsOf (nb : NotebookId) : List AssertId :=
  (trace nb).filterMap fun e =>
    match e with
    | Event.assertCheck a => some a
    | _ => none

/-- The Python variables holding pathline data in the particle-tracking
notebooks: pathlines in prt_ex3, pls in prt_whirls_animation. -/
inductive PlVar where
  | pathlines
  | pls
deriving DecidableEq

/-- The operations the particle-tracking notebooks perform on pathline data,
in cell order: reading the simulator track CSV into a variable
(pd.read_csv), displaying the variable, plotting it (plot_pathline),
handing it to the VTK mesh conversion (vtk.add_pathline_points), or
modifying particle coordinates in it (no notebook cell does this, so no
operation list contains it). -/
inductive PlOp where
  | readTrackCsv (v : PlVar)
  | showVar (v : PlVar)
  | plotPathlines (v : PlVar)
  | addToVtk (v : PlVar)
  | modifyCoords (v : PlVar)
deriving DecidableEq

/-- The pathline-data operations of each notebook, transcribed in cell order.
prt_ex3: pathlines = pd.read_csv(demo_ws / trackcsvfile_prt); pathlines;
mm.plot_pathline(pathlines, ...).  prt_whirls_animation:
pls = pd.read_csv(sim_ws / trackcsvfile_prt); pls;
vtk.add_pathline_points(pls).  No other notebook handles pathline data. -/
def pathlineOps : NotebookId → List PlOp
  | NotebookId.prtEx3 =>
      [PlOp.readTrackCsv PlVar.pathlines, PlOp.showVar PlVar.pathlines,
       PlOp.plotPathlines PlVar.pathlines]
  | NotebookId.prtWhirlsAnimation =>
      [PlOp.readTrackCsv PlVar.pls, PlOp.showVar PlVar.pls,
       PlOp.addToVtk PlVar.pls]
  | _ => []

/-- Does the operation modify particle coordinates? -/
def PlOp.isModify : PlOp → Bool
  | PlOp.modifyCoords _ => true
  | _ => false

/-- The variable an operation visualizes (plots or converts to a mesh). -/
def PlOp.consumes : PlOp → Option PlVar
  | PlOp.plotPathlines v => some v
  | PlOp.addToVtk v => some v
  | _ => none

/-- The variable an operation reads the track CSV into. -/
def PlOp.readsCsv : PlOp → Option PlVar
  | PlOp.readTrackCsv v => some v
  | _ => none

/-
Helper lemmas.
-/

/-- Indexing a map over List.range with a default: position i below n holds
the image of i. -/
theorem getD_map_range {α : Type} (f : ℕ → α) (d : α) (n i : ℕ) (h : i < n) :
    ((List.range n).map f).getD i d = f i := by
  rw [List.getD_eq_getElem?_getD, List.getElem?_map, List.getElem?_range h]
  rfl

/-- The fallback cell value rewritten over a common denominator:
floor(icol / (ncol / nr)) = floor(icol * nr / ncol) in exact arithmetic. -/
theorem Step2.isub_eq (icol ncol nr : ℕ) :
    Step2.isub icol ncol nr = ⌊((icol * nr : ℕ) : ℚ) / (ncol : ℚ)⌋ := by
  unfold Step2.isub
  rw [div_div_eq_mul_div]
  push_cast
  ring_nf

/-- The fallback cell value is never negative. -/
theorem Step2.isub_nonneg (icol ncol nr : ℕ) : 0 ≤ Step2.isub icol ncol nr := by
  unfold Step2.isub
  apply Int.floor_nonneg.mpr
  positivity

/-- For a column inside the grid and at least one domain, the fallback cell
value is below the number of domains. -/
theorem Step2.isub_lt (icol ncol nr : ℕ) (hic : icol < ncol) (hnr : 0 < nr) :
    Step2.isub icol ncol nr < nr := by
  rw [Step2.isub_eq]
  apply Int.floor_lt.mpr
  have hc : (0 : ℚ) < (ncol : ℚ) := by
    have : 0 < ncol := Nat.lt_of_le_of_lt (Nat.zero_le icol) hic
    exact_mod_cast this
  rw [div_lt_iff₀ hc]
  have h1 : (icol : ℚ) < (ncol : ℚ) := by exact_mod_cast hic
  have hnr2 : (0 : ℚ) < (nr : ℚ) := by exact_mod_cast hnr
  push_cast
  nlinarith

/-- The fallback cell value is non-decreasing in the column index. -/
theorem Step2.isub_mono (a b ncol nr : ℕ) (hab : a ≤ b) :
    Step2.isub a ncol nr ≤ Step2.isub b ncol nr := by
  unfold Step2.isub
  apply Int.floor_le_floor
  have h : (a : ℚ) ≤ (b : ℚ) := by exact_mod_cast hab
  rcases eq_or_lt_of_le
      (show (0 : ℚ) ≤ (ncol : ℚ) / (nr : ℚ) by positivity) with h0 | h0
  · rw [← h0, div_zero, div_zero]
  · gcongr

/-- The thickness of layer k produced by the top/bottom loop is d0 * 1.5 ^ k. -/
theorem BuildBase.thickness (t d0 : ℚ) (k : ℕ) :
    BuildBase.topc t d0 k - BuildBase.botm t d0 k = d0 * 1.5 ^ k := by
  cases k with
  | zero => simp [BuildBase.topc, BuildBase.botm]
  | succ n => simp [BuildBase.topc, BuildBase.botm]

/-- For a positive first-layer thickness the bottoms drop strictly from one
layer to the next. -/
theorem BuildBase.botm_succ_lt (t d0 : ℚ) (h : 0 < d0) (k : ℕ) :
    BuildBase.botm t d0 (k + 1) < BuildBase.botm t d0 k := by
  have e : BuildBase.botm t d0 (k + 1)
      = BuildBase.botm t d0 k - d0 * 1.5 ^ (k + 1) := rfl
  have hp : 0 < d0 * 1.5 ^ (k + 1) := by positivity
  rw [e]
  linarith

/-- For a positive first-layer thickness the bottoms are strictly decreasing
in the layer index. -/
theorem BuildBase.botm_strict_anti (t d0 : ℚ) (h : 0 < d0) {j k : ℕ}
    (hjk : j < k) : BuildBase.botm t d0 k < BuildBase.botm t d0 j := by
  induction k with
  | zero => exact absurd hjk (Nat.not_lt_zero j)
  | succ n ih =>
      rcases Nat.lt_succ_iff_lt_or_eq.mp hjk with h2 | h2
      · exact lt_trans (BuildBase.botm_succ_lt t d0 h n) (ih h2)
      · rw [h2]
        exact BuildBase.botm_succ_lt t d0 h n

/-
Claim theorems.
-/

/-- C1 counterexample: running the splitting cell of the step2 notebook with
use_metis = False (an execution path the notebook text explicitly invites)
does not produce the mask through the toolkit call optimize_splitting_mask;
the mask is computed by the repository loop itself, here for a 2-by-4 grid
split into 2 domains. -/
theorem c1_split_counterexample :
    (Step2.split_array false 2 4 2).isToolkit = false ∧
    Step2.split_array false 2 4 2
      = Step2.SplitMask.inRepo [[0, 0, 1, 1], [0, 0, 1, 1]] := by
  constructor
  · rfl
  · show Step2.SplitMask.inRepo _ = _
    norm_num [List.range_succ, Step2.isub]

/-- C1 amended: with the committed setting use_metis = True the splitting
mask is produced by the toolkit call optimize_splitting_mask; the notebook
additionally implements an in-repo rectangular fallback, taken when
use_metis = False, that assigns every cell the domain number
floor(icol / (ncol / nr_domains)). -/
theorem c1_split_amended (nrow ncol nr_domains irow icol : ℕ)
    (hir : irow < nrow) (hic : icol < ncol) :
    Step2.split_array true nrow ncol nr_domains
      = Step2.SplitMask.toolkit nr_domains ∧
    (Step2.split_array false nrow ncol nr_domains).isToolkit = false ∧
    ∃ mask, Step2.split_array false nrow ncol nr_domains
        = Step2.SplitMask.inRepo mask ∧
      (mask.getD irow []).getD icol 0
        = ⌊(icol : ℚ) / ((ncol : ℚ) / (nr_domains : ℚ))⌋ := by
  refine ⟨rfl, rfl,
    (List.range nrow).map fun _irow =>
      (List.range ncol).map fun icol2 => Step2.isub icol2 ncol nr_domains,
    rfl, ?_⟩
  rw [getD_map_range _ _ _ _ hir, getD_map_range _ _ _ _ hic]
  rfl

/-- C1 witness: the amended statement instantiated on a 2-by-4 grid split
into 2 domains, at the cell in row 1, column 3. -/
theorem c1_split_amended_witness :
    Step2.split_array true 2 4 2 = Step2.SplitMask.toolkit 2 ∧
    (Step2.split_array false 2 4 2).isToolkit = false ∧
    ∃ mask, Step2.split_array false 2 4 2 = Step2.SplitMask.inRepo mask ∧
      (mask.getD 1 []).getD 3 0 = ⌊(3 : ℚ) / ((4 : ℚ) / (2 : ℚ))⌋ :=
  c1_split_amended 2 4 2 1 3 (by decide) (by decide)

/-- C8: the rectangular fallback mask assigns
floor(icol / (ncol / nr_domains)) to every cell; the value does not depend
on the row, is non-decreasing in the column, lies between 0 and
nr_domains - 1, and equal values form contiguous column bands. -/
theorem c8_rectangular_fallback (nrow ncol nr_domains irow icol : ℕ)
    (_hrow : 1 ≤ nrow) (_hcol : 1 ≤ ncol) (hdom : 1 ≤ nr_domains)
    (hir : irow < nrow) (hic : icol < ncol) :
    ∃ mask, Step2.split_array false nrow ncol nr_domains
        = Step2.SplitMask.inRepo mask ∧
      (mask.getD irow []).getD icol 0 = Step2.isub icol ncol nr_domains ∧
      (∀ irow2, irow2 < nrow →
        (mask.getD irow2 []).getD icol 0 = Step2.isub icol ncol nr_domains) ∧
      (∀ a b, a ≤ b → b < ncol →
        Step2.isub a ncol nr_domains ≤ Step2.isub b ncol nr_domains) ∧
      0 ≤ Step2.isub icol ncol nr_domains ∧
      Step2.isub icol ncol nr_domains ≤ (nr_domains : ℤ) - 1 ∧
      (∀ a b c, a ≤ b → b ≤ c →
        Step2.isub a ncol nr_domains = Step2.isub c ncol nr_domains →
        Step2.isub b ncol nr_domains = Step2.isub a ncol nr_domains) := by
  refine ⟨(List.range nrow).map fun _irow =>
      (List.range ncol).map fun icol2 => Step2.isub icol2 ncol nr_domains,
    rfl, ?_, ?_, ?_, Step2.isub_nonneg icol ncol nr_domains, ?_, ?_⟩
  · rw [getD_map_range _ _ _ _ hir, getD_map_range _ _ _ _ hic]
  · intro irow2 h2
    rw [getD_map_range _ _ _ _ h2, getD_map_range _ _ _ _ hic]
  · intro a b hab _hb
    exact Step2.isub_mono a b ncol nr_domains hab
  · have := Step2.isub_lt icol ncol nr_domains hic hdom
    omega
  · intro a b c hab hbc hac
    have h1 := Step2.isub_mono a b ncol nr_domains hab
    have h2 := Step2.isub_mono b c ncol nr_domains hbc
    omega

/-- C8 witness: the fallback-mask statement instantiated on a 2-by-4 grid
split into 2 domains, at the cell in row 1, column 3. -/
theorem c8_rectangular_fallback_witness :
    ∃ mask, Step2.split_array false 2 4 2 = Step2.SplitMask.inRepo mask ∧
      (mask.getD 1 []).getD 3 0 = Step2.isub 3 4 2 ∧
      (∀ irow2, irow2 < 2 →
        (mask.getD irow2 []).getD 3 0 = Step2.isub 3 4 2) ∧
      (∀ a b, a ≤ b → b < 4 → Step2.isub a 4 2 ≤ Step2.isub b 4 2) ∧
      0 ≤ Step2.isub 3 4 2 ∧
      Step2.isub 3 4 2 ≤ (2 : ℤ) - 1 ∧
      (∀ a b c, a ≤ b → b ≤ c → Step2.isub a 4 2 = Step2.isub c 4 2 →
        Step2.isub b 4 2 = Step2.isub a 4 2) :=
  c8_rectangular_fallback 2 4 2 1 3 (by decide) (by decide) (by decide)
    (by decide) (by decide)

/-- C9: after the top/bottom construction loop of the base-watershed builder
(nlay = 5, dv0 = 5.0), at every cell (topography value t) and every layer
index k below nlay the thickness topc k - botm k equals dv0 * 1.5 ^ k and is
strictly positive, the top of layer k + 1 equals the bottom of layer k
(layers are vertically contiguous), and the bottoms are strictly decreasing
in the layer index. -/
theorem c9_layer_elevations (t : ℚ) (k : ℕ) (_hk : k < BuildBase.nlay) :
    BuildBase.topc t BuildBase.dv0 k - BuildBase.botm t BuildBase.dv0 k
      = BuildBase.dv0 * 1.5 ^ k ∧
    0 < BuildBase.topc t BuildBase.dv0 k - BuildBase.botm t BuildBase.dv0 k ∧
    BuildBase.topc t BuildBase.dv0 (k + 1) = BuildBase.botm t BuildBase.dv0 k ∧
    (∀ j, j < k →
      BuildBase.botm t BuildBase.dv0 k < BuildBase.botm t BuildBase.dv0 j) := by
  have hpos : (0 : ℚ) < BuildBase.dv0 := by norm_num [BuildBase.dv0]
  refine ⟨BuildBase.thickness t BuildBase.dv0 k, ?_, rfl, ?_⟩
  · rw [BuildBase.thickness t BuildBase.dv0 k]
    positivity
  · intro j hj
    exact BuildBase.botm_strict_anti t BuildBase.dv0 hpos hj

/-- C9 witness: the layer-elevation statement instantiated at topography
value 100 and layer index 2. -/
theorem c9_layer_elevations_witness :
    BuildBase.topc 100 BuildBase.dv0 2 - BuildBase.botm 100 BuildBase.dv0 2
      = BuildBase.dv0 * 1.5 ^ 2 ∧
    0 < BuildBase.topc 100 BuildBase.dv0 2 - BuildBase.botm 100 BuildBase.dv0 2 ∧
    BuildBase.topc 100 BuildBase.dv0 3 = BuildBase.botm 100 BuildBase.dv0 2 ∧
    (∀ j, j < 2 →
      BuildBase.botm 100 BuildBase.dv0 2 < BuildBase.botm 100 BuildBase.dv0 j) :=
  c9_layer_elevations 100 2 (by norm_num [BuildBase.nlay])

/-- C10: in get_izone of the prt_ex3 notebook the layer-1 assignments are
applied in the order well (zone 2), drain (zone 4), river (zone 5): after
the drain update the cell at row 14, column 19 holds 4, and after the final
river update it holds 5; the well cell (10, 9) holds 2; every layer-1 entry
is one of 1, 2, 4, 5; layer 2 is the scalar 1; and every layer-3 entry is
1 or 3. -/
theorem c10_izone_zones :
    PrtEx3.l1_well 10 9 = 2 ∧
    PrtEx3.l1_drain 14 19 = 4 ∧
    PrtEx3.l1 14 19 = 5 ∧
    PrtEx3.l1 10 9 = 2 ∧
    ((List.range PrtEx3.nrow).all fun i => (List.range PrtEx3.ncol).all fun j =>
      (PrtEx3.l1 i j == 1) || (PrtEx3.l1 i j == 2) || (PrtEx3.l1 i j == 4) ||
        (PrtEx3.l1 i j == 5)) = true ∧
    PrtEx3.izone2 = 1 ∧
    ((List.range PrtEx3.nrow).all fun i => (List.range PrtEx3.ncol).all fun j =>
      (PrtEx3.l3 i j == 1) || (PrtEx3.l3 i j == 3)) = true := by
  decide

/-- C2 counterexample: the repository code does perform numeric computations
over arrays beyond configuration assembly, library IO calls, subprocess
invocation and plotting: the base builder computes a geometric
layer-thickness recurrence (layer 2 has thickness 45/4 = 5 * 1.5 ^ 2), the
prt_ex3 notebook computes row-major node numbers (209 for well 1, 1084 for
well 2) and constructs the zone array (the cell at row 14, column 19 ends in
zone 5). -/
theorem c2_notebook_computations_counterexample :
    BuildBase.topc 100 BuildBase.dv0 2 - BuildBase.botm 100 BuildBase.dv0 2
      = 45 / 4 ∧
    PrtEx3.nodeNumber 0 10 9 = 209 ∧
    PrtEx3.nodeNumber 2 12 4 = 1084 ∧
    PrtEx3.l1 14 19 = 5 := by
  refine ⟨?_, by decide, by decide, by decide⟩
  norm_num [BuildBase.topc, BuildBase.botm, BuildBase.dv0]

/-- C2 amended: the notebooks are predominantly orchestration of the external
simulator, but they do implement a handful of small in-repo numeric
computations over arrays: the geometric layer-thickness recurrence of the
base builder (thickness of layer k is dv0 * 1.5 ^ k), the row-major
node-number arithmetic of prt_ex3 (ncol * (nrow * k + i) + j, which equals
nrow * ncol * k + ncol * i + j), the zone-array construction of get_izone,
and the rectangular splitting-mask fallback of the step2 notebook. -/
theorem c2_small_numeric_computations (t d0 : ℚ) (k i j : ℕ) :
    BuildBase.topc t d0 k - BuildBase.botm t d0 k = d0 * 1.5 ^ k ∧
    PrtEx3.nodeNumber k i j
      = PrtEx3.nrow * PrtEx3.ncol * k + PrtEx3.ncol * i + j ∧
    PrtEx3.l1 10 9 = 2 ∧
    PrtEx3.l3 12 4 = 3 ∧
    Step2.isub 3 4 2 = 1 := by
  refine ⟨BuildBase.thickness t d0 k, ?_, by decide, by decide, ?_⟩
  · simp only [PrtEx3.nodeNumber, PrtEx3.nrow, PrtEx3.ncol]
    ring
  · norm_num [Step2.isub]

/-- C3 counterexample: the base-watershed builder notebook is a notebook of
the repository whose trace contains a write_simulation call but no
run_simulation call, so it is not the case that every notebook builds,
writes, runs and visualizes a simulation. -/
theorem c3_counterexample :
    NotebookId.buildBaseWatershed ∈ notebooks ∧
    (trace NotebookId.buildBaseWatershed).any Event.isRun = false ∧
    (trace NotebookId.buildBaseWatershed).any Event.isWrite = true := by
  decide

/-- C3 amended: the lifecycle phases (construct or load, write, run, load
output) performed by each notebook: the intro notebook has no code; the
base builder and the step2 splitter construct and write but never run; the
step3 notebook loads and runs but never writes; the step4 convergence
notebook loads simulations and output but neither writes nor runs; every
other notebook constructs or loads, writes, runs and loads output. -/
theorem c3_amended_phase_table :
    notebooks.map (fun nb => (nb, phases nb)) =
      [(NotebookId.intro, (false, false, false, false)),
       (NotebookId.step2SplitWatershed, (true, true, false, false)),
       (NotebookId.modelSplittingDemo, (true, true, true, true)),
       (NotebookId.step1RunBaseWatershed, (true, true, true, true)),
       (NotebookId.step3ParallelWatershed, (true, false, true, true)),
       (NotebookId.step4ParallelSolution, (true, false, false, true)),
       (NotebookId.prtEx3, (true, true, true, true)),
       (NotebookId.prtWhirlsAnimation, (true, true, true, true)),
       (NotebookId.gwtEx3, (true, true, true, true)),
       (NotebookId.netcdfOutput, (true, true, true, true)),
       (NotebookId.buildBaseWatershed, (true, true, false, false))] := by
  decide

/-- C4 counterexample: the step3 notebook invokes the external executable
through run_simulation but contains no write_simulation call at all (it runs
the input deck written by the step2 notebook), so the claimed
assemble-write-run-load sequence does not hold in every notebook that
invokes the simulator. -/
theorem c4_counterexample :
    NotebookId.step3ParallelWatershed ∈ notebooks ∧
    (trace NotebookId.step3ParallelWatershed).any Event.isRun = true ∧
    (trace NotebookId.step3ParallelWatershed).any Event.isWrite = false := by
  decide

/-- C4 amended: in every notebook, for every simulation it touches, every
write_simulation call is preceded by constructing or loading that
simulation, every run_simulation call is preceded by a write_simulation of
that simulation whenever the notebook writes it at all, and every load of
that simulation output is preceded by a run_simulation of it whenever the
notebook runs it at all (the step3 notebook runs a deck written in step2
without writing, and the serial-base outputs read in step3 and the CSVs
read in step4 come from runs performed in earlier notebooks). -/
theorem c4_amended_order :
    notebooks.all (fun nb => orderOK (trace nb)) = true := by
  decide

/-- C5 counterexample: the prt_ex3 notebook states the assert
np.allclose(mp7_release_points, prt_release_points) over the release-point
arrays it computes, so it is not the case that no assertion is stated
anywhere in the repository code. -/
theorem c5_counterexample :
    Event.assertCheck AssertId.releasePointsAllclose
      ∈ trace NotebookId.prtEx3 := by
  decide

/-- C5 amended: the repository code states exactly three assert statements:
the two solver-CSV file-existence checks of the step4 convergence notebook
and the release-point np.allclose check of the prt_ex3 notebook; no other
notebook states an assertion. -/
theorem c5_amended_assertions :
    (notebooks.map assertsOf).flatten =
      [AssertId.innerCsvBaseExists, AssertId.innerCsvParallelExists,
       AssertId.releasePointsAllclose] := by
  decide

/-- C6: in both particle-tracking notebooks, the pathline data that is
plotted (plot_pathline in prt_ex3) or converted to meshes
(vtk.add_pathline_points in prt_whirls_animation) is exactly the variable
read from the simulator track CSV: the operation lists contain no
coordinate-modifying operation, and in every notebook the variables handed
to visualization coincide with the variables the track CSV was read into. -/
theorem c6_pathlines_passthrough :
    pathlineOps NotebookId.prtEx3 =
      [PlOp.readTrackCsv PlVar.pathlines, PlOp.showVar PlVar.pathlines,
       PlOp.plotPathlines PlVar.pathlines] ∧
    pathlineOps NotebookId.prtWhirlsAnimation =
      [PlOp.readTrackCsv PlVar.pls, PlOp.showVar PlVar.pls,
       PlOp.addToVtk PlVar.pls] ∧
    (notebooks.all fun nb =>
      ((pathlineOps nb).filter PlOp.isModify).isEmpty) = true ∧
    (notebooks.all fun nb =>
      (pathlineOps nb).filterMap PlOp.consumes
        == (pathlineOps nb).filterMap PlOp.readsCsv) = true := by
  decide

/-- C7: no notebook trace contains a direct creation, scheduling or
synchronization of a thread, process or MPI rank, and the only processors
counts passed to run_simulation across the repository are 1 (step1) and the
nr_cores value 2 (step3). -/
theorem c7_no_concurrency_coordination :
    (notebooks.all fun nb => (trace nb).all fun e => !e.isSpawn) = true ∧
    (notebooks.map fun nb =>
      (trace nb).filterMap Event.processorsArg).flatten = [1, 2] := by
  decide
